import Mathlib

/-!
Verification development for the dynamic configuration synchronization
subsystem of the Now2ai RTL Fixer extension.  The definitions below are a
shallow embedding of src/src/config/config-manager.js, src/src/extension/
storage.js and src/src/config/constants.js: JavaScript values are embedded
as the JsonValue inductive, asynchronous storage and network effects are
embedded as explicit oracle parameters, and machine timestamps are Nat
milliseconds.  JavaScript objects cannot carry duplicate keys, so the
association lists used for the obj constructor are read first-match and all
concrete documents below are duplicate-free.
-/

namespace RTLFixer

/-- Embedding of JavaScript runtime values as they occur in the config
subsystem: JSON data plus the two JS non-values null and undefined. -/
inductive JsonValue where
  | null
  | undefined
  | bool (b : Bool)
  | num (n : Int)
  | str (s : String)
  | arr (elems : List JsonValue)
  | obj (fields : List (String × JsonValue))
deriving Repr

/-- Test against the JS null literal (the strict comparison x === null). -/
def isNullJs : JsonValue → Bool
  | .null => true
  | _ => false

/-- The JS typeof operator restricted to the embedded values (typeof null,
arrays and plain objects is the string "object"). -/
def typeof : JsonValue → String
  | .null => "object"
  | .undefined => "undefined"
  | .bool _ => "boolean"
  | .num _ => "number"
  | .str _ => "string"
  | .arr _ => "object"
  | .obj _ => "object"

/-- JS truthiness: null, undefined, false, 0 and the empty string are falsy;
every array and object (including empty ones) is truthy. -/
def truthy : JsonValue → Bool
  | .null => false
  | .undefined => false
  | .bool b => b
  | .num n => n != 0
  | .str s => s != ""
  | .arr _ => true
  | .obj _ => true

/-- Object.keys: field names of an object, canonical index strings of an
array, empty for everything else. -/
def keysOf : JsonValue → List String
  | .obj fields => fields.map Prod.fst
  | .arr elems => (List.range elems.length).map toString
  | _ => []

/-- The hasOwnProperty test as used by the config validators: key membership
for objects, canonical in-range index strings for arrays. -/
def hasOwn : JsonValue → String → Bool
  | .obj fields, key => fields.any (fun p => p.1 == key)
  | .arr elems, key =>
    match key.toNat? with
    | some n => toString n == key && n < elems.length
    | none => false
  | _, _ => false

/-- Property read v[key]: a missing property yields the JS undefined value.
Array reads accept only canonical index strings, as in JS. -/
def getProp : JsonValue → String → JsonValue
  | .obj fields, key => ((fields.find? (fun p => p.1 == key)).map Prod.snd).getD .undefined
  | .arr elems, key =>
    match key.toNat? with
    | some n => if toString n == key then elems.getD n .undefined else .undefined
    | none => .undefined
  | _, _ => .undefined

/-- A property that an embedded value does not own reads as undefined. -/
theorem getProp_of_not_hasOwn (v : JsonValue) (key : String)
    (h : hasOwn v key = false) : getProp v key = .undefined := by
  cases v with
  | obj fields =>
    simp only [hasOwn] at h
    have hnone : fields.find? (fun p => p.1 == key) = none := by
      rw [List.find?_eq_none]
      intro p hp hcon
      have hany : fields.any (fun p => p.1 == key) = true :=
        List.any_eq_true.mpr ⟨p, hp, hcon⟩
      rw [hany] at h
      cases h
    simp [getProp, hnone]
  | arr elems =>
    simp only [hasOwn] at h
    simp only [getProp]
    cases hk : key.toNat? with
    | none => rfl
    | some n =>
      rw [hk] at h
      dsimp only at h ⊢
      by_cases hs : (toString n == key) = true
      · rw [hs, Bool.true_and] at h
        simp only [decide_eq_false_iff_not, not_lt] at h
        simp only [hs, if_true]
        rw [List.getD_eq_getElem?_getD, List.getElem?_eq_none (by omega)]
        rfl
      · simp only [Bool.not_eq_true] at hs
        simp [hs]
  | null => rfl
  | undefined => rfl
  | bool b => rfl
  | num n => rfl
  | str s => rfl

/-! Constants from src/src/config/constants.js. -/

/-- Brand identifier used throughout the extension. -/
def BRAND : String := "now2ai"

/-- Current version of the extension. -/
def VERSION : String := "1.0"

/-! Constants from src/src/config/config-manager.js. -/

namespace ConfigSource

def BUNDLED : String := "bundled"

def REMOTE : String := "remote"

def CACHED : String := "cached"

end ConfigSource

namespace ConfigType

def DEFAULTS : String := "defaults"

def DOMAINS : String := "domains"

def STYLES : String := "styles"

def UI : String := "ui"

end ConfigType

namespace StorageKeys

def CONFIG_METADATA : String := BRAND ++ "_rtl_fixer_config_metadata"

def CACHED_CONFIG_DEFAULTS : String := BRAND ++ "_rtl_fixer_cached_config_defaults"

def CACHED_CONFIG_DOMAINS : String := BRAND ++ "_rtl_fixer_cached_config_domains"

def CACHED_CONFIG_STYLES : String := BRAND ++ "_rtl_fixer_cached_config_styles"

def CACHED_CONFIG_UI : String := BRAND ++ "_rtl_fixer_cached_config_ui"

end StorageKeys

/-- Remote source URL per config type (the CONFIG_URLS table; unknown type
names read as the empty string standing for the JS undefined entry). -/
def CONFIG_URLS (type : String) : String :=
  if type == ConfigType.DEFAULTS then
    "https://raw.githubusercontent.com/idanmashaal/Now2ai-RTL-Fixer/dynamic-config/src/config/json/defaults_config.json"
  else if type == ConfigType.DOMAINS then
    "https://raw.githubusercontent.com/idanmashaal/Now2ai-RTL-Fixer/dynamic-config/src/config/json/domains_config.json"
  else if type == ConfigType.STYLES then
    "https://raw.githubusercontent.com/idanmashaal/Now2ai-RTL-Fixer/dynamic-config/src/config/json/styles_config.json"
  else if type == ConfigType.UI then
    "https://raw.githubusercontent.com/idanmashaal/Now2ai-RTL-Fixer/dynamic-config/src/config/json/ui_config.json"
  else ""

/-- Update configuration constants (the UPDATE_CONFIG table). -/
structure UpdateConfigConsts where
  REFRESH_INTERVAL_MINUTES : Nat
  MAX_RETRY_COUNT : Nat
  RETRY_DELAY_SECONDS : Nat
  REQUEST_TIMEOUT_MS : Nat

def UPDATE_CONFIG : UpdateConfigConsts :=
  { REFRESH_INTERVAL_MINUTES := 360
    MAX_RETRY_COUNT := 3
    RETRY_DELAY_SECONDS := 60
    REQUEST_TIMEOUT_MS := 5000 }

/-! Bundled baseline documents.  The JSON payloads imported by
config-manager.js (src/config/json/defaults_config.json and friends) are not
part of the provided source tree, so the four documents below are concrete
instances modelled from the spec. -/

/-- Modelled from the spec: the bundled defaults baseline document
(src/config/json/defaults_config.json is missing from the source tree).
Spec section 3 gives the shape position / selectors / settings, and
section 4.2 names the selector arrays attributes, tags and classes. -/
def defaultsConfigBundled : JsonValue :=
  .obj
    [("position", .obj [("bottom", .str "20px"), ("right", .str "20px")]),
     ("selectors",
      .obj
        [("attributes", .arr [.str "dir"]),
         ("tags", .arr [.str "p"]),
         ("classes", .arr [.str "chat-message"])]),
     ("settings", .obj [("debug", .bool false)])]

/-- Modelled from the spec: items of the bundled domains baseline document
(src/config/json/domains_config.json is missing from the source tree).
Spec section 3 gives an ordered sequence of domain / position / selectors
records. -/
def domainsConfigBundledItems : List JsonValue :=
  [.obj
    [("domain", .str "chat.openai.com"),
     ("position", .obj [("bottom", .str "20px")]),
     ("selectors", .obj [("tags", .arr [.str "p"])])],
   .obj
    [("domain", .str "claude.ai"),
     ("position", .obj [("top", .str "20px")]),
     ("selectors", .obj [("tags", .arr [.str "div"])])]]

/-- Modelled from the spec: the bundled domains baseline document as an
array value. -/
def domainsConfigBundled : JsonValue := .arr domainsConfigBundledItems

/-- Modelled from the spec: the bundled styles baseline document
(src/config/json/styles_config.json is missing from the source tree).
Spec sections 3 and 8 give a mapping from the class names rtl-auto,
rtl-inherit and rtl-force to non-empty CSS property maps; the property
values mirror the CSS_CLASSES table of constants.js. -/
def stylesConfigBundled : JsonValue :=
  .obj
    [("rtl-auto",
      .obj
        [("unicode-bidi", .str "isolate !important"),
         ("direction", .str "auto !important"),
         ("dir", .str "auto")]),
     ("rtl-inherit",
      .obj
        [("unicode-bidi", .str "inherit !important"),
         ("direction", .str "inherit !important"),
         ("dir", .str "auto")]),
     ("rtl-force",
      .obj
        [("unicode-bidi", .str "embed !important"),
         ("direction", .str "rtl !important"),
         ("dir", .str "rtl")])]

/-- Modelled from the spec: the bundled ui baseline document
(src/config/json/ui_config.json is missing from the source tree).  Spec
section 3 gives the shape theme.light / theme.dark, indicatorBaseStyles and
linkStyles; the field contents mirror the fallback ui document embedded in
src/src/config/styles.js. -/
def uiConfigBundled : JsonValue :=
  .obj
    [("theme",
      .obj
        [("light", .obj [("background", .str "rgba(255, 255, 255, .9)"), ("text", .str "#000")]),
         ("dark", .obj [("background", .str "rgba(0, 0, 0, .8)"), ("text", .str "#fff")])]),
     ("indicatorBaseStyles", .obj [("fontSize", .str "14px"), ("zIndex", .str "999999")]),
     ("linkStyles",
      .obj
        [("light", .obj [("color", .str "#0071E3")]),
         ("dark", .obj [("color", .str "#66b3ff")])])]

/-- Bundled configs mapped by type (the bundledConfigs table; an unknown
type name reads as the JS undefined value). -/
def bundledConfigs (type : String) : JsonValue :=
  if type == ConfigType.DEFAULTS then defaultsConfigBundled
  else if type == ConfigType.DOMAINS then domainsConfigBundled
  else if type == ConfigType.STYLES then stylesConfigBundled
  else if type == ConfigType.UI then uiConfigBundled
  else .undefined

/-! Simple validation (the validationSchemas table of config-manager.js).
Each validator mirrors the corresponding JS arrow function; the JS
truthiness coercion of the && chain is made explicit with truthy. -/

/-- Validator for the defaults type: config && typeof config === "object" &&
config.position && config.selectors. -/
def validateDefaultsSchema (config : JsonValue) : Bool :=
  truthy config && typeof config == "object" &&
    truthy (getProp config "position") && truthy (getProp config "selectors")

/-- Validator for the domains type: Array.isArray(config) && every item has
truthy domain, position and selectors properties.  A null item makes the JS
callback throw, which validateConfig catches into false; here a null item
reads undefined properties and also yields false. -/
def validateDomainsSchema (config : JsonValue) : Bool :=
  match config with
  | .arr elems =>
    elems.all (fun domain =>
      truthy (getProp domain "domain") && truthy (getProp domain "position") &&
        truthy (getProp domain "selectors"))
  | _ => false

/-- Validator for the styles type: config && typeof config === "object" &&
config["rtl-auto"] && config["rtl-inherit"] && config["rtl-force"]. -/
def validateStylesSchema (config : JsonValue) : Bool :=
  truthy config && typeof config == "object" &&
    truthy (getProp config "rtl-auto") && truthy (getProp config "rtl-inherit") &&
    truthy (getProp config "rtl-force")

/-- Validator for the ui type: config && typeof config === "object" &&
config.theme && config.indicatorBaseStyles. -/
def validateUiSchema (config : JsonValue) : Bool :=
  truthy config && typeof config == "object" &&
    truthy (getProp config "theme") && truthy (getProp config "indicatorBaseStyles")

/-- validateConfig: dispatch on the validationSchemas table; a type without
a validator yields false. -/
def validateConfig (type : String) (config : JsonValue) : Bool :=
  if type == ConfigType.DEFAULTS then validateDefaultsSchema config
  else if type == ConfigType.DOMAINS then validateDomainsSchema config
  else if type == ConfigType.STYLES then validateStylesSchema config
  else if type == ConfigType.UI then validateUiSchema config
  else false

/-- Required-key set for the array branch of the structural check: the union
of keys across bundled items that are truthy objects, in first-seen order
(the JS Set built by the forEach loop). -/
def requiredArrayKeys (items : List JsonValue) : List String :=
  (items.foldl
    (fun acc item =>
      if truthy item && typeof item == "object" then acc ++ keysOf item else acc)
    []).eraseDups

mutual

/-- Recursive structural compatibility check between a bundled baseline
value and a remote candidate value (the inner isStructureCompatible of
validateSchemaCompatibility in config-manager.js). -/
def isStructureCompatible (bundled remote : JsonValue) : Bool :=
  if typeof bundled != typeof remote then false
  else
    match bundled with
    | .arr bElems =>
      (match remote with
       | .arr rElems =>
         (match rElems with
          | [] => false
          | r0 :: _ =>
            (match bElems with
             | [] => true
             | b0 :: _ =>
               if typeof b0 != typeof r0 then false
               else if typeof b0 == "object" && !isNullJs b0 then
                 ((requiredArrayKeys bElems).filter (fun key => !hasOwn r0 key)).length == 0
               else true))
       | _ => false)
    | .obj fields =>
      if typeof remote != "object" || isNullJs remote then false
      else checkObjFields fields remote
    | _ => true

/-- Iteration over Object.keys(bundled) in the object branch: every bundled
key must exist on the remote value, recursing into bundled values that are
non-null objects. -/
def checkObjFields (fields : List (String × JsonValue)) (remote : JsonValue) : Bool :=
  match fields with
  | [] => true
  | (key, bval) :: rest =>
    (hasOwn remote key &&
      (if typeof bval == "object" && !isNullJs bval then
         isStructureCompatible bval (getProp remote key)
       else true))
    && checkObjFields rest remote

end

/-- validateSchemaCompatibility: structural comparison of a remote config
against the bundled baseline of its type. -/
def validateSchemaCompatibility (type : String) (remoteConfig : JsonValue) : Bool :=
  isStructureCompatible (bundledConfigs type) remoteConfig

/-! Cache store.  chrome.storage.local is embedded as an oracle describing
the outcome of the one read a function performs; a cached record is the
object saved by updateConfigFile / initializeConfigType. -/

/-- A cached config record as persisted by saveCachedConfig: source tag,
save timestamp in epoch milliseconds, optional content hash, source URL and
the document payload. -/
structure CachedEntry where
  source : String
  timestamp : Nat
  contentHash : Option String
  url : String
  data : JsonValue
deriving Repr

/-- Outcome of one chrome.storage.local.get call for a cached-config key:
the key is absent, the read throws, or the key holds an entry. -/
inductive StorageRead where
  | missing
  | readError
  | entry (e : CachedEntry)
deriving Repr

/-- getStorageKeyForType: switch over the four known type names; the default
branch throws, embedded as none. -/
def getStorageKeyForType (type : String) : Option String :=
  if type == ConfigType.DEFAULTS then some StorageKeys.CACHED_CONFIG_DEFAULTS
  else if type == ConfigType.DOMAINS then some StorageKeys.CACHED_CONFIG_DOMAINS
  else if type == ConfigType.STYLES then some StorageKeys.CACHED_CONFIG_STYLES
  else if type == ConfigType.UI then some StorageKeys.CACHED_CONFIG_UI
  else none

/-- getCachedConfig: the storage key is computed before the try block, so an
unknown type propagates the exception (Except.error); inside the try a
missing key or a storage failure both produce null (none). -/
def getCachedConfig (type : String) (read : StorageRead) :
    Except String (Option CachedEntry) :=
  match getStorageKeyForType type with
  | none => .error ("Unknown config type: " ++ type)
  | some _ =>
    match read with
    | .missing => .ok none
    | .readError => .ok none
    | .entry e => .ok (some e)

/-- getConfig, the config facade read: a cached entry with a truthy data
payload and remote source wins; every other resolved case falls back to the
bundled baseline for the type.  A rejection of getCachedConfig propagates. -/
def getConfig (type : String) (read : StorageRead) : Except String JsonValue :=
  match getCachedConfig type read with
  | .error e => .error e
  | .ok cachedConfig =>
    match cachedConfig with
    | some entry =>
      if truthy entry.data && entry.source == ConfigSource.REMOTE then .ok entry.data
      else .ok (bundledConfigs type)
    | none => .ok (bundledConfigs type)

/-! Config metadata. -/

/-- The persisted ConfigMetadata record. -/
structure ConfigMetadata where
  last_update_check : Nat
  last_update_timestamp : Nat
  last_update_status : String
  last_successful_update : Nat
  update_attempt_count : Nat
  refresh_interval_minutes : Nat
  version : String
deriving Repr, DecidableEq

/-- Default metadata for first run (the DEFAULT_METADATA table). -/
def DEFAULT_METADATA : ConfigMetadata :=
  { last_update_check := 0
    last_update_timestamp := 0
    last_update_status := "never"
    last_successful_update := 0
    update_attempt_count := 0
    refresh_interval_minutes := UPDATE_CONFIG.REFRESH_INTERVAL_MINUTES
    version := VERSION }

/-- A caller-supplied metadata update: the JS partial object spread over the
current record.  A none field is absent from the partial object. -/
structure MetadataPatch where
  last_update_check : Option Nat := none
  last_update_timestamp : Option Nat := none
  last_update_status : Option String := none
  last_successful_update : Option Nat := none
  update_attempt_count : Option Nat := none
  refresh_interval_minutes : Option Nat := none
  version : Option String := none
deriving Repr

/-- Spread of a partial metadata object over the current record, field by
field, as the JS object spread does. -/
def spreadMetadata (current : ConfigMetadata) (patch : MetadataPatch) : ConfigMetadata :=
  { last_update_check := patch.last_update_check.getD current.last_update_check
    last_update_timestamp := patch.last_update_timestamp.getD current.last_update_timestamp
    last_update_status := patch.last_update_status.getD current.last_update_status
    last_successful_update := patch.last_successful_update.getD current.last_successful_update
    update_attempt_count := patch.update_attempt_count.getD current.update_attempt_count
    refresh_interval_minutes := patch.refresh_interval_minutes.getD current.refresh_interval_minutes
    version := patch.version.getD current.version }

/-- updateConfigMetadata from config-manager.js: spread the current record,
then the patch, then force version to the build-time VERSION constant.  The
result is the record value handed to chrome.storage.local.set. -/
def updateConfigMetadata (current : ConfigMetadata) (patch : MetadataPatch) : ConfigMetadata :=
  { spreadMetadata current patch with version := VERSION }

namespace Storage

/-- updateConfigMetadata from storage.js: same merge, same forced version,
persisted through setStorageItem. -/
def updateConfigMetadata (current : ConfigMetadata) (patch : MetadataPatch) : ConfigMetadata :=
  { spreadMetadata current patch with version := VERSION }

end Storage

/-! Content fetcher. -/

/-- Environment behavior of one HTTP attempt in fetchRemoteConfig: either
the request fails (network error, timeout, or a non-2xx status, all of which
take the success:false paths) or it yields a raw 2xx body text. -/
inductive FetchResponse where
  | failure
  | success (bodyText : String)
deriving Repr

/-- Result value of fetchRemoteConfig as consumed by updateConfigFile. -/
inductive FetchResult where
  | failed
  | notModified
  | updated (data : JsonValue) (contentHash : String)
deriving Repr

/-- fetchRemoteConfig: hash the raw body, return notModified when a previous
truthy hash matches, otherwise parse; a parse failure is a failed result.
The hash function and the JSON parser are embedding parameters. -/
def fetchRemoteConfig (hashFn : String → String) (parseFn : String → Option JsonValue)
    (contentHash : Option String) (resp : FetchResponse) : FetchResult :=
  match resp with
  | .failure => .failed
  | .success bodyText =>
    let newContentHash := hashFn bodyText
    match contentHash with
    | some previous =>
      if previous == newContentHash then .notModified
      else
        match parseFn bodyText with
        | some data => .updated data newContentHash
        | none => .failed
    | none =>
      match parseFn bodyText with
      | some data => .updated data newContentHash
      | none => .failed

/-- The JS expression cachedConfig?.contentHash || null: an absent entry, an
absent hash and an empty-string hash all give null. -/
def currentHashOf : Option CachedEntry → Option String
  | none => none
  | some e =>
    match e.contentHash with
    | none => none
    | some s => if s == "" then none else some s

/-- Outcome of one updateConfigFile run: the returned success flag, the
cache contents for the type after the run, the number of fetch requests
performed and the backoff delays awaited (in milliseconds, in order). -/
structure UpdateResult where
  success : Bool
  cache : Option CachedEntry
  fetchCount : Nat
  delays : List Nat
deriving Repr

/-- One iteration of the retry loop of updateConfigFile plus its successors,
by recursion on the remaining attempts (fuel = MAX_RETRY_COUNT minus
retryCount, so fuel 0 is the loop exit returning the never-assigned success
variable, which is false).  Before every attempt except the first the loop
awaits RETRY_DELAY_SECONDS * 1000 * 2 ^ (retryCount - 1) milliseconds.  The
environment function env gives the response of attempt number retryCount. -/
def updateConfigLoop (type : String) (hashFn : String → String)
    (parseFn : String → Option JsonValue) (cachedConfig : Option CachedEntry)
    (currentHash : Option String) (env : Nat → FetchResponse) (now : Nat) :
    Nat → Nat → UpdateResult
  | _, 0 => { success := false, cache := cachedConfig, fetchCount := 0, delays := [] }
  | retryCount, fuel + 1 =>
    let delays : List Nat :=
      if retryCount > 0 then
        [UPDATE_CONFIG.RETRY_DELAY_SECONDS * 1000 * 2 ^ (retryCount - 1)]
      else []
    match fetchRemoteConfig hashFn parseFn currentHash (env retryCount) with
    | .notModified =>
      (match cachedConfig with
       | some entry =>
         { success := true, cache := some { entry with timestamp := now },
           fetchCount := 1, delays := delays }
       | none =>
         { success := true, cache := none, fetchCount := 1, delays := delays })
    | .updated data newContentHash =>
      if validateConfig type data && validateSchemaCompatibility type data then
        { success := true,
          cache := some
            { source := ConfigSource.REMOTE, timestamp := now,
              contentHash := some newContentHash, url := CONFIG_URLS type, data := data },
          fetchCount := 1, delays := delays }
      else
        let rest := updateConfigLoop type hashFn parseFn cachedConfig currentHash env now
          (retryCount + 1) fuel
        { success := rest.success, cache := rest.cache,
          fetchCount := rest.fetchCount + 1, delays := delays ++ rest.delays }
    | .failed =>
      let rest := updateConfigLoop type hashFn parseFn cachedConfig currentHash env now
        (retryCount + 1) fuel
      { success := rest.success, cache := rest.cache,
        fetchCount := rest.fetchCount + 1, delays := delays ++ rest.delays }

/-- updateConfigFile: read the cached entry and its truthy content hash,
then run the bounded retry loop starting at retryCount 0. -/
def updateConfigFile (type : String) (hashFn : String → String)
    (parseFn : String → Option JsonValue) (cachedConfig : Option CachedEntry)
    (env : Nat → FetchResponse) (now : Nat) : UpdateResult :=
  updateConfigLoop type hashFn parseFn cachedConfig (currentHashOf cachedConfig) env now
    0 UPDATE_CONFIG.MAX_RETRY_COUNT

/-- The backoff delays the retry loop awaits when every iteration from the
given retryCount on keeps looping: one entry of
RETRY_DELAY_SECONDS * 1000 * 2 ^ (retryCount - 1) per iteration whose
retryCount is positive. -/
def backoffDelays : Nat → Nat → List Nat
  | _, 0 => []
  | retryCount, fuel + 1 =>
    (if retryCount > 0 then
      [UPDATE_CONFIG.RETRY_DELAY_SECONDS * 1000 * 2 ^ (retryCount - 1)]
     else []) ++ backoffDelays (retryCount + 1) fuel

/-- Items of a candidate domains array whose second item, but not its first,
carries every key required by the baseline union (used against the
structural check). -/
def domainsCandidateSecondItemCompleteItems : List JsonValue :=
  [.obj [("note", .str "first item lacks the required keys")],
   .obj
    [("domain", .str "example.com"),
     ("position", .obj [("bottom", .str "10px")]),
     ("selectors", .obj [("tags", .arr [.str "p"])])]]

/-- The candidate domains array built from those items. -/
def domainsCandidateSecondItemComplete : JsonValue :=
  .arr domainsCandidateSecondItemCompleteItems

/-- Styles candidate carrying the three required classes with their baseline
properties plus an extra ltr-force class. -/
def stylesRemoteWithExtra : JsonValue :=
  .obj
    [("rtl-auto",
      .obj
        [("unicode-bidi", .str "isolate !important"),
         ("direction", .str "auto !important"),
         ("dir", .str "auto")]),
     ("rtl-inherit",
      .obj
        [("unicode-bidi", .str "inherit !important"),
         ("direction", .str "inherit !important"),
         ("dir", .str "auto")]),
     ("rtl-force",
      .obj
        [("unicode-bidi", .str "embed !important"),
         ("direction", .str "rtl !important"),
         ("dir", .str "rtl")]),
     ("ltr-force",
      .obj
        [("unicode-bidi", .str "embed !important"),
         ("direction", .str "ltr !important"),
         ("dir", .str "ltr")])]

/-- Styles candidate with all three class names present but an empty
property mapping under rtl-force. -/
def stylesRemoteEmptyForce : JsonValue :=
  .obj
    [("rtl-auto",
      .obj
        [("unicode-bidi", .str "isolate !important"),
         ("direction", .str "auto !important"),
         ("dir", .str "auto")]),
     ("rtl-inherit",
      .obj
        [("unicode-bidi", .str "inherit !important"),
         ("direction", .str "inherit !important"),
         ("dir", .str "auto")]),
     ("rtl-force", .obj [])]

/-! Update scheduler: end of drain and refresh decision. -/

/-- updateLastUpdateTimestamp: write the drain completion metadata through
updateConfigMetadata.  On a full success last_successful_update advances to
now; otherwise it is re-read from the current record (the JS || 0 on the
numeric field is the identity in this embedding). -/
def updateLastUpdateTimestamp (isFullSuccess : Bool) (now : Nat)
    (metadata : ConfigMetadata) : ConfigMetadata :=
  updateConfigMetadata metadata
    { last_update_timestamp := some now
      last_update_status := some (if isFullSuccess then "success" else "partial")
      last_successful_update :=
        some (if isFullSuccess then now else metadata.last_successful_update) }

/-- processUpdateQueue, end of drain: outcomes lists the per-type results of
updateConfigFile in dequeue order (an exception while processing a type also
counts as failed).  The finally block classifies the cycle as a full success
exactly when no type failed and at least one succeeded, then persists the
timestamps through updateLastUpdateTimestamp. -/
def processUpdateQueue (outcomes : List Bool) (now : Nat)
    (metadata : ConfigMetadata) : ConfigMetadata :=
  let success := outcomes.count true
  let failed := outcomes.count false
  let isFullSuccess := failed == 0 && success > 0
  updateLastUpdateTimestamp isFullSuccess now metadata

/-- The JS expression x || d on a non-negative number: 0 is falsy. -/
def jsOrNat (x d : Nat) : Nat := if x == 0 then d else x

/-- shouldRefreshConfigs: elapsed minutes since last_update_check compared
against the configured refresh interval (defaulting to 360 when the stored
field is falsy).  The division is exact rational arithmetic. -/
def shouldRefreshConfigs (metadata : ConfigMetadata) (now : Nat) : Bool :=
  let lastCheck := metadata.last_update_check
  let minutesElapsed : ℚ := ((now : ℚ) - (lastCheck : ℚ)) / (1000 * 60)
  decide (minutesElapsed ≥
    ((jsOrNat metadata.refresh_interval_minutes UPDATE_CONFIG.REFRESH_INTERVAL_MINUTES : Nat) : ℚ))

/-- refreshConfigs: without force, a negative shouldRefreshConfigs answer
returns false and changes nothing; otherwise last_update_check is set to now
through updateConfigMetadata, all four config types are queued, and the call
returns true. -/
def refreshConfigs (force : Bool) (metadata : ConfigMetadata) (now : Nat) :
    Bool × ConfigMetadata × List String :=
  if !force && !shouldRefreshConfigs metadata now then (false, metadata, [])
  else
    (true, updateConfigMetadata metadata { last_update_check := some now },
     [ConfigType.DEFAULTS, ConfigType.DOMAINS, ConfigType.STYLES, ConfigType.UI])

/-! Helper lemmas shared by the claim theorems. -/

/-- A truthy value is neither null nor undefined. -/
theorem truthy_ne_nullish (v : JsonValue) (h : truthy v = true) :
    v ≠ JsonValue.null ∧ v ≠ JsonValue.undefined := by
  constructor <;> rintro rfl <;> simp [truthy] at h

/-- The predicate selecting the four known config type names. -/
def isKnownConfigType (type : String) : Prop :=
  type = ConfigType.DEFAULTS ∨ type = ConfigType.DOMAINS ∨
    type = ConfigType.STYLES ∨ type = ConfigType.UI

/-- Every known type has a storage key and a bundled baseline that is
neither null nor undefined. -/
theorem known_type_key_and_bundled (type : String) (htype : isKnownConfigType type) :
    (∃ k, getStorageKeyForType type = some k) ∧
      bundledConfigs type ≠ JsonValue.null ∧ bundledConfigs type ≠ JsonValue.undefined := by
  rcases htype with h | h | h | h <;> subst h <;>
    exact ⟨⟨_, rfl⟩,
      by simp [bundledConfigs, ConfigType.DEFAULTS, ConfigType.DOMAINS,
        ConfigType.STYLES, ConfigType.UI, defaultsConfigBundled,
        domainsConfigBundled, stylesConfigBundled, uiConfigBundled],
      by simp [bundledConfigs, ConfigType.DEFAULTS, ConfigType.DOMAINS,
        ConfigType.STYLES, ConfigType.UI, defaultsConfigBundled,
        domainsConfigBundled, stylesConfigBundled, uiConfigBundled]⟩

/-- Behavior of getConfig for a type whose storage key resolves: the read
branches of the facade as one equation per storage outcome. -/
theorem getConfig_resolved (type : String) (k : String)
    (hk : getStorageKeyForType type = some k) :
    (∀ e, getConfig type (StorageRead.entry e) =
      (if truthy e.data && e.source == ConfigSource.REMOTE then Except.ok e.data
       else Except.ok (bundledConfigs type))) ∧
    getConfig type StorageRead.missing = Except.ok (bundledConfigs type) ∧
    getConfig type StorageRead.readError = Except.ok (bundledConfigs type) := by
  refine ⟨fun e => ?_, ?_, ?_⟩ <;>
    · unfold getConfig getCachedConfig
      rw [hk]

/-- C9: every write of the ConfigMetadata record through updateConfigMetadata,
in the config-manager module as in the storage module, overwrites the version
field with the build-time VERSION constant, whatever version value the
caller-supplied partial metadata carries. -/
theorem updateConfigMetadata_forces_version (current : ConfigMetadata)
    (patch : MetadataPatch) :
    (updateConfigMetadata current patch).version = VERSION ∧
    (Storage.updateConfigMetadata current patch).version = VERSION :=
  ⟨rfl, rfl⟩

/-- C8: the refresh-due decision is the threshold test
elapsed-minutes >= refresh_interval_minutes: with interval 360, an elapsed
time of 400 minutes answers true and 300 minutes answers false, and a forced
refresh proceeds regardless of elapsed time. -/
theorem shouldRefreshConfigs_threshold (metadata : ConfigMetadata)
    (h : metadata.refresh_interval_minutes = 360) :
    shouldRefreshConfigs metadata (metadata.last_update_check + 400 * 60 * 1000) = true ∧
    shouldRefreshConfigs metadata (metadata.last_update_check + 300 * 60 * 1000) = false ∧
    (∀ now, (refreshConfigs true metadata now).1 = true) := by
  refine ⟨?_, ?_, fun now => rfl⟩ <;>
    · simp only [shouldRefreshConfigs, jsOrNat, h, UPDATE_CONFIG,
        decide_eq_true_eq, decide_eq_false_iff_not, not_le]
      push_cast
      norm_num

/-- Witness for C8 at the default metadata record. -/
theorem shouldRefreshConfigs_threshold_witness :
    shouldRefreshConfigs DEFAULT_METADATA (DEFAULT_METADATA.last_update_check + 400 * 60 * 1000) = true ∧
    shouldRefreshConfigs DEFAULT_METADATA (DEFAULT_METADATA.last_update_check + 300 * 60 * 1000) = false :=
  ⟨(shouldRefreshConfigs_threshold DEFAULT_METADATA rfl).1,
   (shouldRefreshConfigs_threshold DEFAULT_METADATA rfl).2.1⟩

/-- C1: for every known config type the facade read resolves to a non-null,
non-undefined document; a cached entry with a truthy payload and remote
source yields that payload, and every other resolved storage outcome (no
entry, read error, non-remote source, falsy payload) yields the bundled
baseline directly. -/
theorem getConfig_never_null (type : String) (read : StorageRead)
    (htype : isKnownConfigType type) :
    (∃ doc, getConfig type read = Except.ok doc ∧
      doc ≠ JsonValue.null ∧ doc ≠ JsonValue.undefined) ∧
    (∀ e, read = StorageRead.entry e → truthy e.data = true →
      e.source = ConfigSource.REMOTE → getConfig type read = Except.ok e.data) ∧
    (∀ e, read = StorageRead.entry e →
      ¬(truthy e.data = true ∧ e.source = ConfigSource.REMOTE) →
      getConfig type read = Except.ok (bundledConfigs type)) ∧
    ((read = StorageRead.missing ∨ read = StorageRead.readError) →
      getConfig type read = Except.ok (bundledConfigs type)) := by
  obtain ⟨⟨k, hk⟩, hnn, hnu⟩ := known_type_key_and_bundled type htype
  obtain ⟨hentry, hmissing, herror⟩ := getConfig_resolved type k hk
  cases read with
  | missing =>
    refine ⟨⟨bundledConfigs type, hmissing, hnn, hnu⟩, ?_, ?_, fun _ => hmissing⟩ <;>
      · intro e he
        simp at he
  | readError =>
    refine ⟨⟨bundledConfigs type, herror, hnn, hnu⟩, ?_, ?_, fun _ => herror⟩ <;>
      · intro e he
        simp at he
  | entry e =>
    by_cases hguard : (truthy e.data && e.source == ConfigSource.REMOTE) = true
    · have hok : getConfig type (StorageRead.entry e) = Except.ok e.data := by
        rw [hentry e, if_pos hguard]
      rw [Bool.and_eq_true] at hguard
      obtain ⟨htr, hsrc⟩ := hguard
      refine ⟨⟨e.data, hok, (truthy_ne_nullish e.data htr).1,
        (truthy_ne_nullish e.data htr).2⟩, ?_, ?_, ?_⟩
      · intro e2 he2 _ _
        cases he2
        exact hok
      · intro e2 he2 hnot
        cases he2
        exact absurd ⟨htr, eq_of_beq hsrc⟩ hnot
      · intro hor
        rcases hor with h | h <;> simp at h
    · have hok : getConfig type (StorageRead.entry e) = Except.ok (bundledConfigs type) := by
        rw [hentry e, if_neg hguard]
      refine ⟨⟨bundledConfigs type, hok, hnn, hnu⟩, ?_, ?_, ?_⟩
      · intro e2 he2 htr hsrc
        cases he2
        refine absurd ?_ hguard
        rw [Bool.and_eq_true]
        exact ⟨htr, beq_of_eq hsrc⟩
      · intro e2 he2 _
        cases he2
        exact hok
      · intro hor
        rcases hor with h | h <;> simp at h

/-- Witness for C1 at the styles type with an empty store. -/
theorem getConfig_never_null_witness :
    getConfig ConfigType.STYLES StorageRead.missing =
      Except.ok (bundledConfigs ConfigType.STYLES) ∧
    (∃ doc, getConfig ConfigType.STYLES StorageRead.missing = Except.ok doc ∧
      doc ≠ JsonValue.null ∧ doc ≠ JsonValue.undefined) := by
  have h := getConfig_never_null ConfigType.STYLES StorageRead.missing
    (Or.inr (Or.inr (Or.inl rfl)))
  exact ⟨h.2.2.2 (Or.inl rfl), h.1⟩

/-- C10: for a type name outside the four ConfigType values, getConfig
rejects with the Unknown-config-type error, because getCachedConfig computes
the storage key before entering its try block; under the precondition that
the type is known the throwing branch is unreachable and the facade resolves
to a document. -/
theorem getConfig_unknown_type_rejects (type : String) (read : StorageRead)
    (h1 : type ≠ ConfigType.DEFAULTS) (h2 : type ≠ ConfigType.DOMAINS)
    (h3 : type ≠ ConfigType.STYLES) (h4 : type ≠ ConfigType.UI) :
    getCachedConfig type read = Except.error ("Unknown config type: " ++ type) ∧
    getConfig type read = Except.error ("Unknown config type: " ++ type) ∧
    (∀ t r, isKnownConfigType t → ∃ doc, getConfig t r = Except.ok doc) := by
  have hkey : getStorageKeyForType type = none := by
    simp [getStorageKeyForType, h1, h2, h3, h4]
  have hcached : getCachedConfig type read = Except.error ("Unknown config type: " ++ type) := by
    unfold getCachedConfig
    rw [hkey]
  refine ⟨hcached, ?_, ?_⟩
  · unfold getConfig
    rw [hcached]
  · intro t r ht
    obtain ⟨⟨k, hk⟩, _, _⟩ := known_type_key_and_bundled t ht
    obtain ⟨hentry, hmissing, herror⟩ := getConfig_resolved t k hk
    cases r with
    | missing => exact ⟨_, hmissing⟩
    | readError => exact ⟨_, herror⟩
    | entry e =>
      by_cases hguard : (truthy e.data && e.source == ConfigSource.REMOTE) = true
      · exact ⟨_, by rw [hentry e, if_pos hguard]⟩
      · exact ⟨_, by rw [hentry e, if_neg hguard]⟩

/-- Witness for C10 at a concrete unknown type name. -/
theorem getConfig_unknown_type_rejects_witness :
    getConfig "bogus" StorageRead.missing =
      Except.error ("Unknown config type: " ++ "bogus") :=
  (getConfig_unknown_type_rejects "bogus" StorageRead.missing
    (by decide) (by decide) (by decide) (by decide)).2.1

/-- One-step unfolding of the retry loop at a successor fuel value, stated
once so the loop lemmas can rewrite with it. -/
theorem updateConfigLoop_succ (type : String) (hashFn : String → String)
    (parseFn : String → Option JsonValue) (cachedConfig : Option CachedEntry)
    (currentHash : Option String) (env : Nat → FetchResponse) (now : Nat)
    (retryCount fuel : Nat) :
    updateConfigLoop type hashFn parseFn cachedConfig currentHash env now
      retryCount (fuel + 1) =
      (match fetchRemoteConfig hashFn parseFn currentHash (env retryCount) with
       | .notModified =>
         (match cachedConfig with
          | some entry =>
            { success := true, cache := some { entry with timestamp := now },
              fetchCount := 1,
              delays :=
                if retryCount > 0 then
                  [UPDATE_CONFIG.RETRY_DELAY_SECONDS * 1000 * 2 ^ (retryCount - 1)]
                else [] }
          | none =>
            { success := true, cache := none, fetchCount := 1,
              delays :=
                if retryCount > 0 then
                  [UPDATE_CONFIG.RETRY_DELAY_SECONDS * 1000 * 2 ^ (retryCount - 1)]
                else [] })
       | .updated data newContentHash =>
         if validateConfig type data && validateSchemaCompatibility type data then
           { success := true,
             cache := some
               { source := ConfigSource.REMOTE, timestamp := now,
                 contentHash := some newContentHash, url := CONFIG_URLS type,
                 data := data },
             fetchCount := 1,
             delays :=
               if retryCount > 0 then
                 [UPDATE_CONFIG.RETRY_DELAY_SECONDS * 1000 * 2 ^ (retryCount - 1)]
               else [] }
         else
           { success := (updateConfigLoop type hashFn parseFn cachedConfig currentHash
               env now (retryCount + 1) fuel).success,
             cache := (updateConfigLoop type hashFn parseFn cachedConfig currentHash
               env now (retryCount + 1) fuel).cache,
             fetchCount := (updateConfigLoop type hashFn parseFn cachedConfig currentHash
               env now (retryCount + 1) fuel).fetchCount + 1,
             delays :=
               (if retryCount > 0 then
                 [UPDATE_CONFIG.RETRY_DELAY_SECONDS * 1000 * 2 ^ (retryCount - 1)]
                else []) ++
               (updateConfigLoop type hashFn parseFn cachedConfig currentHash
                 env now (retryCount + 1) fuel).delays }
       | .failed =>
         { success := (updateConfigLoop type hashFn parseFn cachedConfig currentHash
             env now (retryCount + 1) fuel).success,
           cache := (updateConfigLoop type hashFn parseFn cachedConfig currentHash
             env now (retryCount + 1) fuel).cache,
           fetchCount := (updateConfigLoop type hashFn parseFn cachedConfig currentHash
             env now (retryCount + 1) fuel).fetchCount + 1,
           delays :=
             (if retryCount > 0 then
               [UPDATE_CONFIG.RETRY_DELAY_SECONDS * 1000 * 2 ^ (retryCount - 1)]
              else []) ++
             (updateConfigLoop type hashFn parseFn cachedConfig currentHash
               env now (retryCount + 1) fuel).delays }) := rfl

/-- Retry-loop run in which every remaining attempt fails at the fetch
level: the loop fetches once per remaining attempt, awaits the exponential
backoff delays, leaves the cache untouched and ends with success false. -/
theorem updateConfigLoop_all_fail (type : String) (hashFn : String → String)
    (parseFn : String → Option JsonValue) (cachedConfig : Option CachedEntry)
    (currentHash : Option String) (env : Nat → FetchResponse) (now : Nat) :
    ∀ fuel retryCount,
      (∀ i, retryCount ≤ i → i < retryCount + fuel →
        fetchRemoteConfig hashFn parseFn currentHash (env i) = FetchResult.failed) →
      updateConfigLoop type hashFn parseFn cachedConfig currentHash env now retryCount fuel =
        { success := false, cache := cachedConfig, fetchCount := fuel,
          delays := backoffDelays retryCount fuel } := by
  intro fuel
  induction fuel with
  | zero => intro retryCount _; rfl
  | succ fuel ih =>
    intro retryCount hf
    rw [updateConfigLoop_succ, hf retryCount (le_refl _) (by omega),
      ih (retryCount + 1) (fun i h1 h2 => hf i (by omega) (by omega))]
    rfl

/-- Retry-loop run in which every remaining attempt fetches a document that
the validation gate rejects: the loop keeps retrying exactly as for network
failures, leaves the cache untouched and ends with success false. -/
theorem updateConfigLoop_all_rejected (type : String) (hashFn : String → String)
    (parseFn : String → Option JsonValue) (cachedConfig : Option CachedEntry)
    (currentHash : Option String) (env : Nat → FetchResponse) (now : Nat) :
    ∀ fuel retryCount,
      (∀ i, retryCount ≤ i → i < retryCount + fuel →
        ∃ d ch, fetchRemoteConfig hashFn parseFn currentHash (env i) =
            FetchResult.updated d ch ∧
          (validateConfig type d && validateSchemaCompatibility type d) = false) →
      updateConfigLoop type hashFn parseFn cachedConfig currentHash env now retryCount fuel =
        { success := false, cache := cachedConfig, fetchCount := fuel,
          delays := backoffDelays retryCount fuel } := by
  intro fuel
  induction fuel with
  | zero => intro retryCount _; rfl
  | succ fuel ih =>
    intro retryCount hf
    obtain ⟨d, ch, hfetch, hgate⟩ := hf retryCount (le_refl _) (by omega)
    rw [updateConfigLoop_succ, hfetch]
    dsimp only
    rw [hgate]
    rw [ih (retryCount + 1) (fun i h1 h2 => hf i (by omega) (by omega))]
    rfl

/-- C6: when every fetch attempt for a type fails, the per-type update
performs exactly MAX_RETRY_COUNT = 3 fetch requests, awaits a delay of
RETRY_DELAY_SECONDS * 1000 * 2 ^ (n - 1) milliseconds before retry n, does
not touch the cache and reports failure. -/
theorem updateConfigFile_all_attempts_fail (type : String) (hashFn : String → String)
    (parseFn : String → Option JsonValue) (cachedConfig : Option CachedEntry)
    (env : Nat → FetchResponse) (now : Nat)
    (hfail : ∀ i, i < UPDATE_CONFIG.MAX_RETRY_COUNT →
      fetchRemoteConfig hashFn parseFn (currentHashOf cachedConfig) (env i) =
        FetchResult.failed) :
    UPDATE_CONFIG.MAX_RETRY_COUNT = 3 ∧
    UPDATE_CONFIG.RETRY_DELAY_SECONDS = 60 ∧
    updateConfigFile type hashFn parseFn cachedConfig env now =
      { success := false, cache := cachedConfig,
        fetchCount := UPDATE_CONFIG.MAX_RETRY_COUNT,
        delays := [UPDATE_CONFIG.RETRY_DELAY_SECONDS * 1000 * 2 ^ (1 - 1),
                   UPDATE_CONFIG.RETRY_DELAY_SECONDS * 1000 * 2 ^ (2 - 1)] } := by
  refine ⟨rfl, rfl, ?_⟩
  unfold updateConfigFile
  rw [updateConfigLoop_all_fail type hashFn parseFn cachedConfig
    (currentHashOf cachedConfig) env now UPDATE_CONFIG.MAX_RETRY_COUNT 0
    (fun i h1 h2 => hfail i (by omega))]
  rfl

/-- Witness for C6: three straight network failures on a fresh cache. -/
theorem updateConfigFile_all_attempts_fail_witness :
    updateConfigFile ConfigType.STYLES (fun _ => "H1") (fun _ => none) none
      (fun _ => FetchResponse.failure) 1000 =
      { success := false, cache := none, fetchCount := UPDATE_CONFIG.MAX_RETRY_COUNT,
        delays := [UPDATE_CONFIG.RETRY_DELAY_SECONDS * 1000 * 2 ^ (1 - 1),
                   UPDATE_CONFIG.RETRY_DELAY_SECONDS * 1000 * 2 ^ (2 - 1)] } :=
  (updateConfigFile_all_attempts_fail ConfigType.STYLES (fun _ => "H1")
    (fun _ => none) none (fun _ => FetchResponse.failure) 1000
    (fun _ _ => rfl)).2.2

/-- C5: when the fetched body hashes to the stored content hash of the
cached entry, the update step keeps the cached document and content hash,
updates only the entry timestamp, performs a single fetch and counts as a
success. -/
theorem updateConfigFile_unchanged (type : String) (hashFn : String → String)
    (parseFn : String → Option JsonValue) (entry : CachedEntry)
    (env : Nat → FetchResponse) (now : Nat) (body contentHash : String)
    (hhash : entry.contentHash = some contentHash) (hne : contentHash ≠ "")
    (henv : env 0 = FetchResponse.success body) (hbody : hashFn body = contentHash) :
    updateConfigFile type hashFn parseFn (some entry) env now =
      { success := true,
        cache := some { source := entry.source, timestamp := now,
                        contentHash := entry.contentHash, url := entry.url,
                        data := entry.data },
        fetchCount := 1, delays := [] } := by
  have hcur : currentHashOf (some entry) = some contentHash := by
    have hstep : currentHashOf (some entry) =
        (match entry.contentHash with
         | none => none
         | some s => if (s == "") = true then none else some s) := rfl
    rw [hstep, hhash]
    simp [hne]
  have hfetch : fetchRemoteConfig hashFn parseFn (some contentHash) (env 0) =
      FetchResult.notModified := by
    rw [henv]
    unfold fetchRemoteConfig
    simp [hbody]
  unfold updateConfigFile
  rw [hcur]
  show updateConfigLoop type hashFn parseFn (some entry) (some contentHash) env now
    0 (2 + 1) = _
  rw [updateConfigLoop_succ, hfetch]
  dsimp only
  rw [hhash]
  rfl

/-- Witness for C5: a concrete cached entry whose hash matches the fetched
body. -/
theorem updateConfigFile_unchanged_witness :
    updateConfigFile ConfigType.UI (fun _ => "HH") (fun _ => none)
      (some { source := "remote", timestamp := 5, contentHash := some "HH",
              url := "u", data := JsonValue.obj [] })
      (fun _ => FetchResponse.success "body") 99 =
      { success := true,
        cache := some { source := "remote", timestamp := 99, contentHash := some "HH",
                        url := "u", data := JsonValue.obj [] },
        fetchCount := 1, delays := [] } :=
  updateConfigFile_unchanged ConfigType.UI (fun _ => "HH") (fun _ => none)
    { source := "remote", timestamp := 5, contentHash := some "HH",
      url := "u", data := JsonValue.obj [] }
    (fun _ => FetchResponse.success "body") 99 "body" "HH"
    rfl (by decide) rfl rfl

/-- Counterexample to C3 as stated: the first attempt fetches and parses a
document that validation rejects, yet the update step goes on to perform
two further fetch requests with backoff delays, so a validation rejection
does not terminate the attempt without retry. -/
theorem validation_rejection_is_retried_counterexample :
    (validateConfig ConfigType.STYLES (JsonValue.obj []) &&
      validateSchemaCompatibility ConfigType.STYLES (JsonValue.obj [])) = false ∧
    fetchRemoteConfig (fun _ => "H1") (fun _ => some (JsonValue.obj [])) none
      (FetchResponse.success "x") = FetchResult.updated (JsonValue.obj []) "H1" ∧
    (updateConfigFile ConfigType.STYLES (fun _ => "H1")
      (fun _ => some (JsonValue.obj [])) none
      (fun _ => FetchResponse.success "x") 1000).fetchCount = 3 ∧
    (updateConfigFile ConfigType.STYLES (fun _ => "H1")
      (fun _ => some (JsonValue.obj [])) none
      (fun _ => FetchResponse.success "x") 1000).delays = [60000, 120000] :=
  ⟨rfl, rfl, rfl, rfl⟩

/-- C3 as amended: a fetched document rejected by validation leaves the
cache entry unmutated and the type counts as a failure, but the attempt is
retried with backoff exactly like a network or parse failure; when every
attempt yields a rejected document the step performs MAX_RETRY_COUNT
fetches and the backoff delays before reporting failure. -/
theorem updateConfigFile_validation_rejected (type : String)
    (hashFn : String → String) (parseFn : String → Option JsonValue)
    (cachedConfig : Option CachedEntry) (env : Nat → FetchResponse) (now : Nat)
    (hupd : ∀ i, i < UPDATE_CONFIG.MAX_RETRY_COUNT →
      ∃ d ch, fetchRemoteConfig hashFn parseFn (currentHashOf cachedConfig) (env i) =
          FetchResult.updated d ch ∧
        (validateConfig type d && validateSchemaCompatibility type d) = false) :
    updateConfigFile type hashFn parseFn cachedConfig env now =
      { success := false, cache := cachedConfig,
        fetchCount := UPDATE_CONFIG.MAX_RETRY_COUNT,
        delays := [UPDATE_CONFIG.RETRY_DELAY_SECONDS * 1000 * 2 ^ (1 - 1),
                   UPDATE_CONFIG.RETRY_DELAY_SECONDS * 1000 * 2 ^ (2 - 1)] } := by
  unfold updateConfigFile
  rw [updateConfigLoop_all_rejected type hashFn parseFn cachedConfig
    (currentHashOf cachedConfig) env now UPDATE_CONFIG.MAX_RETRY_COUNT 0
    (fun i h1 h2 => hupd i (by omega))]
  rfl

/-- Witness for C3 as amended: a parseable but structurally invalid styles
document on every attempt. -/
theorem updateConfigFile_validation_rejected_witness :
    updateConfigFile ConfigType.STYLES (fun _ => "H1")
      (fun _ => some (JsonValue.obj [])) none
      (fun _ => FetchResponse.success "x") 1000 =
      { success := false, cache := none, fetchCount := UPDATE_CONFIG.MAX_RETRY_COUNT,
        delays := [UPDATE_CONFIG.RETRY_DELAY_SECONDS * 1000 * 2 ^ (1 - 1),
                   UPDATE_CONFIG.RETRY_DELAY_SECONDS * 1000 * 2 ^ (2 - 1)] } :=
  updateConfigFile_validation_rejected ConfigType.STYLES (fun _ => "H1")
    (fun _ => some (JsonValue.obj [])) none (fun _ => FetchResponse.success "x") 1000
    (fun _ _ => ⟨JsonValue.obj [], "H1", rfl, rfl⟩)

/-- A drain outcome list counts zero failures exactly when every outcome is
a success. -/
theorem count_false_zero_iff_all (l : List Bool) :
    (l.count false = 0) ↔ l.all (fun b => b) = true := by
  induction l with
  | nil => simp
  | cons b t ih => cases b <;> simp [List.count_cons, ih]

/-- A non-empty all-success drain outcome list counts at least one
success. -/
theorem count_true_pos_of_all (l : List Bool) (hne : l ≠ [])
    (hall : l.all (fun b => b) = true) : 0 < l.count true := by
  cases l with
  | nil => exact absurd rfl hne
  | cons b t =>
    have hall2 := hall
    rw [List.all_cons, Bool.and_eq_true] at hall2
    obtain ⟨hb, _⟩ := hall2
    subst hb
    simp [List.count_cons]

/-- C4 as amended: at the end of every drain cycle the metadata is persisted
with last_update_timestamp set to the completion time; the written status is
success exactly when every processed type succeeded (at least one type is
processed per drain), and partial in every other case, including the
zero-success cycle — the drain never writes the status failed; and
last_successful_update advances to the completion time only on full success,
otherwise keeping its previous value. -/
theorem processUpdateQueue_end_of_drain (outcomes : List Bool) (now : Nat)
    (metadata : ConfigMetadata) (hne : outcomes ≠ []) :
    (processUpdateQueue outcomes now metadata).last_update_timestamp = now ∧
    ((processUpdateQueue outcomes now metadata).last_update_status = "success" ↔
      outcomes.all (fun b => b) = true) ∧
    (outcomes.all (fun b => b) = false →
      (processUpdateQueue outcomes now metadata).last_update_status = "partial") ∧
    (processUpdateQueue outcomes now metadata).last_update_status ≠ "failed" ∧
    (outcomes.all (fun b => b) = true →
      (processUpdateQueue outcomes now metadata).last_successful_update = now) ∧
    (outcomes.all (fun b => b) = false →
      (processUpdateQueue outcomes now metadata).last_successful_update =
        metadata.last_successful_update) := by
  have hred : processUpdateQueue outcomes now metadata =
      updateLastUpdateTimestamp
        ((outcomes.count false == 0) && decide (outcomes.count true > 0))
        now metadata := rfl
  have hb : ((outcomes.count false == 0) && decide (outcomes.count true > 0)) =
      outcomes.all (fun b => b) := by
    cases hall : outcomes.all (fun b => b) with
    | true =>
      have h1 : outcomes.count false = 0 := (count_false_zero_iff_all outcomes).mpr hall
      have h2 : 0 < outcomes.count true := count_true_pos_of_all outcomes hne hall
      simp [h1, h2]
    | false =>
      have h1 : (outcomes.count false == 0) = false := by
        rw [beq_eq_false_iff_ne]
        intro hc
        rw [(count_false_zero_iff_all outcomes).mp hc] at hall
        cases hall
      simp [h1]
  rw [hred, hb]
  cases hall : outcomes.all (fun b => b) with
  | true =>
    refine ⟨rfl, ⟨fun _ => rfl, fun _ => rfl⟩, ?_, ?_, fun _ => rfl, ?_⟩
    · intro h; simp at h
    · intro h
      simp [updateLastUpdateTimestamp, updateConfigMetadata, spreadMetadata] at h
    · intro h; simp at h
  | false =>
    refine ⟨rfl, ⟨?_, ?_⟩, fun _ => rfl, ?_, ?_, fun _ => rfl⟩
    · intro h
      simp [updateLastUpdateTimestamp, updateConfigMetadata, spreadMetadata] at h
    · intro h; simp at h
    · intro h
      simp [updateLastUpdateTimestamp, updateConfigMetadata, spreadMetadata] at h
    · intro h; simp at h

/-- Witness for C4 as amended at a two-element drain with one failure. -/
theorem processUpdateQueue_end_of_drain_witness :
    (processUpdateQueue [true, false] 5 DEFAULT_METADATA).last_update_timestamp = 5 ∧
    (processUpdateQueue [true, false] 5 DEFAULT_METADATA).last_update_status = "partial" ∧
    (processUpdateQueue [true, false] 5 DEFAULT_METADATA).last_successful_update =
      DEFAULT_METADATA.last_successful_update := by
  have h := processUpdateQueue_end_of_drain [true, false] 5 DEFAULT_METADATA (by decide)
  exact ⟨h.1, h.2.2.1 rfl, h.2.2.2.2.2 rfl⟩

/-- Counterexample to C4 as stated: a drain cycle in which zero types
succeed is persisted with status partial, not failed. -/
theorem processUpdateQueue_zero_success_counterexample :
    (processUpdateQueue [false, false, false, false] 1000 DEFAULT_METADATA).last_update_status =
      "partial" ∧
    (processUpdateQueue [false, false, false, false] 1000 DEFAULT_METADATA).last_update_status ≠
      "failed" :=
  ⟨rfl, by decide⟩

/-- An empty filter of the negated predicate is the same boolean as all
elements satisfying the predicate. -/
theorem filter_not_length_beq_zero {α : Type} (L : List α) (p : α → Bool) :
    (((L.filter (fun k => !p k)).length == 0) : Bool) = L.all p := by
  induction L with
  | nil => rfl
  | cons a t ih => cases hpa : p a <;> simp [List.filter_cons, hpa, ih]

/-- C2 as amended: for a baseline array headed by an object and a non-empty
candidate array headed by a non-null object-typed item, the array branch of
the structural check accepts exactly when the FIRST candidate item contains
every key of the required-key union built from the baseline items; items
after the first are never inspected, so a candidate whose only complete item
is not the first is rejected. -/
theorem isStructureCompatible_array_first_item (bElems : List JsonValue)
    (f0 : List (String × JsonValue)) (r0 : JsonValue) (rest : List JsonValue)
    (hb : bElems.head? = some (JsonValue.obj f0))
    (hr : typeof r0 = "object") (_hrn : isNullJs r0 = false) :
    isStructureCompatible (JsonValue.arr bElems) (JsonValue.arr (r0 :: rest)) =
      (requiredArrayKeys bElems).all (fun key => hasOwn r0 key) := by
  obtain ⟨tail, rfl⟩ : ∃ tail, bElems = JsonValue.obj f0 :: tail := by
    cases bElems with
    | nil => cases hb
    | cons x t =>
      rw [List.head?_cons] at hb
      injection hb with hx
      exact ⟨t, by rw [hx]⟩
  have hstep : isStructureCompatible (JsonValue.arr (JsonValue.obj f0 :: tail))
      (JsonValue.arr (r0 :: rest)) =
      (if typeof (JsonValue.obj f0) != typeof r0 then false
       else if typeof (JsonValue.obj f0) == "object" && !isNullJs (JsonValue.obj f0) then
         (((requiredArrayKeys (JsonValue.obj f0 :: tail)).filter
             (fun key => !hasOwn r0 key)).length == 0)
       else true) := rfl
  rw [hstep, hr]
  simp only [typeof, bne_self_eq_false, Bool.false_eq_true, if_false, isNullJs,
    Bool.not_false, Bool.and_true, beq_self_eq_true, if_true]
  exact filter_not_length_beq_zero _ _

/-- Witness for C2 as amended at a one-item baseline and a two-item
candidate. -/
theorem isStructureCompatible_array_first_item_witness :
    isStructureCompatible (JsonValue.arr [JsonValue.obj [("domain", JsonValue.str "a")]])
      (JsonValue.arr [JsonValue.obj [("domain", JsonValue.str "b")], JsonValue.num 7]) =
      (requiredArrayKeys [JsonValue.obj [("domain", JsonValue.str "a")]]).all
        (fun key => hasOwn (JsonValue.obj [("domain", JsonValue.str "b")]) key) :=
  isStructureCompatible_array_first_item _ _ _ _ rfl rfl rfl

/-- Counterexample to C2 as stated: against the domains baseline (required
keys domain, position, selectors), a non-empty candidate whose second item
carries all required keys while its first does not is rejected by the
structural check, although some candidate item satisfies the required-key
set. -/
theorem domains_structural_some_item_counterexample :
    requiredArrayKeys domainsConfigBundledItems = ["domain", "position", "selectors"] ∧
    domainsCandidateSecondItemCompleteItems.any
      (fun item => (requiredArrayKeys domainsConfigBundledItems).all
        (fun key => hasOwn item key)) = true ∧
    validateSchemaCompatibility ConfigType.DOMAINS domainsCandidateSecondItemComplete =
      false :=
  ⟨rfl, rfl, rfl⟩

/-- C7: acceptance for a styles document (basic validator together with the
structural check against the bundled styles baseline): a candidate without
the rtl-force class is rejected; a candidate carrying rtl-auto, rtl-inherit
and rtl-force with their baseline properties plus an extra ltr-force class
is accepted; a candidate whose rtl-force class has an empty property mapping
is rejected. -/
theorem styles_validator_acceptance :
    (∀ c, hasOwn c "rtl-force" = false →
      (validateConfig ConfigType.STYLES c &&
        validateSchemaCompatibility ConfigType.STYLES c) = false) ∧
    (validateConfig ConfigType.STYLES stylesRemoteWithExtra &&
      validateSchemaCompatibility ConfigType.STYLES stylesRemoteWithExtra) = true ∧
    (validateConfig ConfigType.STYLES stylesRemoteEmptyForce &&
      validateSchemaCompatibility ConfigType.STYLES stylesRemoteEmptyForce) = false := by
  refine ⟨?_, rfl, rfl⟩
  intro c hmiss
  have hforce : getProp c "rtl-force" = JsonValue.undefined :=
    getProp_of_not_hasOwn c "rtl-force" hmiss
  have hv : validateConfig ConfigType.STYLES c = false := by
    simp [validateConfig, ConfigType.STYLES, ConfigType.DEFAULTS, ConfigType.DOMAINS,
      validateStylesSchema, hforce, truthy]
  simp [hv]

/-- Witness for C7 at the empty-object candidate, which lacks rtl-force. -/
theorem styles_validator_acceptance_witness :
    (validateConfig ConfigType.STYLES (JsonValue.obj []) &&
      validateSchemaCompatibility ConfigType.STYLES (JsonValue.obj [])) = false :=
  styles_validator_acceptance.1 (JsonValue.obj []) rfl

end RTLFixer
